import Mathlib

/-!
Verification development for the opsdesk terminal dashboard
(`src/app.py`, `src/dsl.py`, `src/providers_k8s.py`).

The Python code is shallowly embedded: strings are Lean `String`s, Python
dicts become structures with `Option` fields for optional keys, and the
library primitives used by the code (`str.strip`, `str.split`,
`str.format`, `shlex.quote`, `sorted`) are modelled by executable Lean
functions over `List Char`.
-/

namespace OpsDesk

deriving instance DecidableEq for Except

/-- Python `str.strip()` restricted to the ASCII whitespace the code
meets (space, tab, CR, LF). -/
def pyStrip (s : String) : String :=
  String.mk (((s.toList.dropWhile Char.isWhitespace).reverse.dropWhile
    Char.isWhitespace).reverse)

/-- Python `str.lstrip()`. -/
def pyLStrip (s : String) : String :=
  String.mk (s.toList.dropWhile Char.isWhitespace)

/-- Python `s.startswith(p)`. -/
def pyStartsWith (s p : String) : Bool :=
  p.toList.isPrefixOf s.toList

/-- Helper for `pyIn`: try the needle at every suffix. -/
def pyInAux (n : List Char) : List Char → Bool
  | [] => n.isEmpty
  | c :: rest => n.isPrefixOf (c :: rest) || pyInAux n rest

/-- Python `needle in haystack` for strings (substring test). -/
def pyIn (needle haystack : String) : Bool :=
  pyInAux needle.toList haystack.toList

/-- Python `s[n:]` (drop the first `n` characters). -/
def pyDrop (s : String) (n : Nat) : String :=
  String.mk (s.toList.drop n)

/-- Helper for `pyWords`: accumulate the current word (reversed). -/
def pyWordsAux : List Char → List Char → List String
  | [], acc => if acc = [] then [] else [String.mk acc.reverse]
  | c :: rest, acc =>
    if c.isWhitespace then
      if acc = [] then pyWordsAux rest []
      else String.mk acc.reverse :: pyWordsAux rest []
    else pyWordsAux rest (c :: acc)

/-- Python `str.split()` with no argument: split on whitespace runs,
discarding empty tokens. -/
def pyWords (s : String) : List String :=
  pyWordsAux s.toList []

/-- The character class `shlex.quote` treats as safe: ASCII letters,
digits, underscore, and `@%+=:,.` plus slash and hyphen. -/
def shlexSafe (c : Char) : Bool :=
  c.isAlphanum || c = '_' || c = '@' || c = '%' || c = '+' || c = '=' ||
    c = ':' || c = ',' || c = '.' || c = '/' || c = '-'

/-- `s.replace("'", "'\"'\"'")` from `shlex.quote`, done per character. -/
def shlexEsc : List Char → List Char
  | [] => []
  | c :: rest =>
    if c = '\x27' then
      '\x27' :: '"' :: '\x27' :: '"' :: '\x27' :: shlexEsc rest
    else c :: shlexEsc rest

/-- Python `shlex.quote`: empty strings become a pair of single quotes,
safe strings pass through, everything else is single-quoted with embedded
single quotes escaped. -/
def shlexQuote (s : String) : String :=
  if s = "" then "\x27\x27"
  else if s.toList.all shlexSafe then s
  else "\x27" ++ String.mk (shlexEsc s.toList) ++ "\x27"

/-- Python `str.format(**vars)` for the subset the configs use: literal
text, doubled braces as escapes, and simple named replacement fields.  An
undefined field name raises `KeyError(name)`, whose `str()` is the name
wrapped in single quotes; stray braces raise `ValueError`.  The error
value is the Python `str(e)` of the exception.  The first argument is the
scanner mode: `none` for literal text, `some acc` while collecting a
field name (characters in reverse). -/
def pyformatCore (vars : List (String × String)) :
    Option (List Char) → List Char → Except String String
  | none, [] => .ok ""
  | some _, [] => .error "expected \x27\x7d\x27 before end of string"
  | some acc, c :: rest =>
    if c = '\x7d' then
      match vars.lookup (String.mk acc.reverse) with
      | some v =>
        match pyformatCore vars none rest with
        | .ok s => .ok (v ++ s)
        | .error e => .error e
      | none => .error ("\x27" ++ String.mk acc.reverse ++ "\x27")
    else pyformatCore vars (some (c :: acc)) rest
  | none, '\x7b' :: '\x7b' :: rest =>
    match pyformatCore vars none rest with
    | .ok s => .ok ("\x7b" ++ s)
    | .error e => .error e
  | none, '\x7d' :: '\x7d' :: rest =>
    match pyformatCore vars none rest with
    | .ok s => .ok ("\x7d" ++ s)
    | .error e => .error e
  | none, '\x7d' :: _ =>
    .error "Single \x27\x7d\x27 encountered in format string"
  | none, '\x7b' :: rest => pyformatCore vars (some []) rest
  | none, c :: rest =>
    match pyformatCore vars none rest with
    | .ok s => .ok (String.mk [c] ++ s)
    | .error e => .error e

/-- Python `template.format(**vars)`. -/
def pyformat (template : String) (vars : List (String × String)) : Except String String :=
  pyformatCore vars none template.toList

/-! ## Embedding of `src/dsl.py` (`dynamic_from_lines`)

Action dicts become `ActTemplate`; the `item` dict handed to
`dynamic_from_lines` becomes `DynItem`.  An `Option` field is `none` when
the corresponding key is absent from the dict. -/

/-- An action template dict `{"label": ..., "cmd": ...}`.  `label?` is
`none` when the dict has no `"label"` key (such entries are skipped by
the code); `cmd?` is `none` when `"cmd"` is absent (`act.get("cmd", "")`
then yields `""`). -/
structure ActTemplate where
  label? : Option String
  cmd? : Option String
deriving DecidableEq

/-- A rendered action `{"label": ..., "cmd": ...}`. -/
structure ActItem where
  label : String
  cmd : String
deriving DecidableEq

/-- One per-line entry of a dynamic submenu:
`{"label": entry_label, "items": per_items}`. -/
structure DynEntry where
  label : String
  items : List ActItem
deriving DecidableEq

/-- The submenu node returned by `dynamic_from_lines`:
`{"title": ..., "items": entries}`. -/
structure DynNode where
  title : String
  items : List DynEntry
deriving DecidableEq

/-- The `item` dict passed to `dynamic_from_lines`: the fields the
function reads (`label`, `env_var`, `entry_label`, `actions`). -/
structure DynItem where
  label? : Option String
  env_var? : Option String
  entry_label? : Option String
  actions : List ActTemplate
deriving DecidableEq

/-- The templating variables map for one output line:
`{LINE, NAME, T0..T9}` (`dsl.py` lines 27-29). -/
def dyn_vars (line : String) : List (String × String) :=
  let tokens := pyWords line
  let name := match tokens with | [] => line | t :: _ => t
  ("LINE", line) :: ("NAME", name) ::
    (List.range 10).map (fun i => ("T" ++ toString i, tokens.getD i ""))

/-- Per-action rendering inside `dynamic_from_lines` (`dsl.py` lines
32-48): dicts without a `"label"` key are skipped; a `str.format` failure
is caught and replaced by a literal `echo` of the error; a configured
`env_var` is prefixed (with the shell-quoted line) when the command does
not already contain `ENV=`.  The quoted value is `vars_map.get("LINE")`,
which is always the stripped line. -/
def dyn_action_item (env_var line : String) (vars : List (String × String))
    (act : ActTemplate) : Option ActItem :=
  match act.label? with
  | none => none
  | some lbl =>
    let raw_cmd :=
      match pyformat (act.cmd?.getD "") vars with
      | .ok s => pyStrip s
      | .error e => "echo \"Template error: " ++ e ++ "\""
    let cmd :=
      if env_var ≠ "" ∧ raw_cmd ≠ "" ∧ pyIn (env_var ++ "=") raw_cmd = false then
        env_var ++ "=" ++ shlexQuote line ++ " " ++ raw_cmd
      else raw_cmd
    some ⟨lbl, cmd⟩

/-- One iteration of the per-line loop of `dynamic_from_lines` (`dsl.py`
lines 25-60): `line` is already stripped and non-blank. -/
def dyn_entry (item : DynItem) (line : String) : DynEntry :=
  let tokens := pyWords line
  let name := match tokens with | [] => line | t :: _ => t
  let vars := dyn_vars line
  let env_var := item.env_var?.getD ""
  let per_items := item.actions.filterMap (dyn_action_item env_var line vars)
  let per_items :=
    if per_items = [] then [⟨"Echo", "echo " ++ shlexQuote line⟩] else per_items
  let label_tmpl := item.entry_label?.getD "{NAME}"
  let entry_label :=
    match pyformat label_tmpl vars with
    | .ok s => s
    | .error _ => name
  ⟨entry_label, per_items⟩

/-- `dsl.dynamic_from_lines(item, lines)`: strip each captured line, drop
blanks, and build one submenu entry per remaining line. -/
def dynamic_from_lines (item : DynItem) (lines : List String) : DynNode :=
  let processed := (lines.map pyStrip).filter (fun l => l ≠ "")
  ⟨item.label?.getD "Choose item", processed.map (dyn_entry item)⟩

/-! ## Embedding of `MenuPane._expand_picker_node` (`src/app.py` 337-424)

The glob / config-section resolution (lines 271-335) touches the
filesystem, so the per-file construction is embedded with the already
matched files as input: each matched `Path p` contributes `p.name`,
`p.stem` and `str(p.resolve())`. -/

/-- One matched kubeconfig file: `p.name`, `p.stem`, `str(p.resolve())`. -/
structure PickerFile where
  name : String
  stem : String
  path : String
deriving DecidableEq

/-- The keyword arguments of the per-action `str.format` call
(`app.py` lines 359-361). -/
def picker_vars (KUBECTL : String) (f : PickerFile) : List (String × String) :=
  [("PATH", f.path), ("NAME", f.name), ("STEM", f.stem),
   ("KUBECONFIG", f.path), ("KUBECTL", KUBECTL)]

/-- The kubectl-normalization block (`app.py` lines 363-377): a command
starting with `kubectl ` is rewritten to use the quoted configured binary
and an injected `--kubeconfig` flag; a command starting with the
configured binary gets the flag injected unless it already mentions
`--kubeconfig`; anything else passes through.  The `try/except` wrapper
in the source guards operations that cannot fail. -/
def picker_normalize_cmd (KUBECTL kubectl_q path raw_cmd : String) : String :=
  if raw_cmd = "" then raw_cmd
  else
    let stripped := pyLStrip raw_cmd
    if pyStartsWith stripped "kubectl " then
      kubectl_q ++ " --kubeconfig=" ++ shlexQuote path ++ " " ++ pyDrop stripped 8
    else if pyStartsWith stripped (KUBECTL ++ " ") ∨ pyStartsWith stripped (kubectl_q ++ " ") then
      if pyIn "--kubeconfig" stripped = false then
        let rest :=
          if pyStartsWith stripped (kubectl_q ++ " ") then pyDrop stripped (kubectl_q.length + 1)
          else pyDrop stripped (KUBECTL.length + 1)
        kubectl_q ++ " --kubeconfig=" ++ shlexQuote path ++ " " ++ rest
      else raw_cmd
    else raw_cmd

/-- One action template applied to one file (`app.py` lines 353-384).
Unlike the dynamic-list path, a `str.format` failure here is NOT caught:
it propagates out of `_expand_picker_node` (modelled as `.error`).
Dicts without a `"label"` key are skipped (`.ok none`).  An empty final
command falls back to `echo "Selected <name>"`. -/
def picker_action_item (KUBECTL kubectl_q : String) (f : PickerFile)
    (act : ActTemplate) : Except String (Option ActItem) :=
  match act.label? with
  | none => .ok none
  | some lbl =>
    match pyformat (act.cmd?.getD "") (picker_vars KUBECTL f) with
    | .error e => .error e
    | .ok rendered =>
      let raw_cmd := pyStrip rendered
      let cmd := picker_normalize_cmd KUBECTL kubectl_q f.path raw_cmd
      let cmd := if cmd = "" then "echo \"Selected " ++ f.name ++ "\"" else cmd
      .ok (some ⟨lbl, cmd⟩)

/-- An element of a per-file item list: either a plain rendered action
dict or a dynamic-list dict (the `Pods (choose)` entry). -/
inductive FileItem where
  | act (a : ActItem)
  | dyn (label list_cmd entry_label : String) (actions : List ActItem)
deriving DecidableEq

/-- Whether a per-file item is a dict with a truthy `list_cmd`
(`app.py` line 395). -/
def file_item_is_dynamic : FileItem → Bool
  | .act _ => false
  | .dyn _ list_cmd _ _ => list_cmd ≠ ""

/-- Projection: the `actions` list carried by a per-file item (empty for
plain action dicts). -/
def file_item_actions : FileItem → List ActItem
  | .act _ => []
  | .dyn _ _ _ acts => acts

/-- The `Pods (choose)` dynamic entry appended to every per-file submenu
(`app.py` lines 399-413). -/
def pods_chooser (kubectl_q path : String) : FileItem :=
  .dyn "Pods (choose)"
    (kubectl_q ++ " --kubeconfig=" ++ shlexQuote path ++
      " get pods --no-headers -o custom-columns=NAME:.metadata.name")
    "{T0}"
    [⟨"Describe", kubectl_q ++ " --kubeconfig=" ++ shlexQuote path ++ " describe pod {T0}"⟩,
     ⟨"Logs (-f)", kubectl_q ++ " --kubeconfig=" ++ shlexQuote path ++ " logs -f {T0}"⟩,
     ⟨"Logs (tail 100)", kubectl_q ++ " --kubeconfig=" ++ shlexQuote path ++ " logs --tail=100 {T0}"⟩,
     ⟨"Exec bash", "interactive: " ++ kubectl_q ++ " --kubeconfig=" ++ shlexQuote path ++ " exec -it {T0} -- bash"⟩,
     ⟨"Exec sh", "interactive: " ++ kubectl_q ++ " --kubeconfig=" ++ shlexQuote path ++ " exec -it {T0} -- /bin/sh"⟩]

/-- The `for act in actions` loop for one file, in order; the first
rendering failure aborts the whole expansion. -/
def picker_render_actions (KUBECTL kubectl_q : String) (f : PickerFile) :
    List ActTemplate → Except String (List ActItem)
  | [] => .ok []
  | act :: rest =>
    match picker_action_item KUBECTL kubectl_q f act with
    | .error e => .error e
    | .ok none => picker_render_actions KUBECTL kubectl_q f rest
    | .ok (some it) =>
      match picker_render_actions KUBECTL kubectl_q f rest with
      | .error e => .error e
      | .ok l => .ok (it :: l)

/-- The per-file submenu entry `{"label": stem, "items": per_file_items}`
(`app.py` lines 352-418): rendered actions, the `Pods (all)` default when
none survive, and the appended `Pods (choose)` dynamic entry unless a
dynamic item is already present. -/
structure PickerChoice where
  label : String
  items : List FileItem
deriving DecidableEq

def picker_file_choice (KUBECTL kubectl_q : String) (actions : List ActTemplate)
    (f : PickerFile) : Except String PickerChoice :=
  match picker_render_actions KUBECTL kubectl_q f actions with
  | .error e => .error e
  | .ok rendered =>
    let per_file_items : List FileItem :=
      if rendered = [] then
        [.act ⟨"Pods (all)", kubectl_q ++ " --kubeconfig=" ++ shlexQuote f.path ++ " get pods"⟩]
      else rendered.map .act
    let has_dynamic := per_file_items.any file_item_is_dynamic
    let per_file_items :=
      if has_dynamic then per_file_items
      else per_file_items ++ [pods_chooser kubectl_q f.path]
    .ok ⟨f.stem, per_file_items⟩

/-- The expanded picker node `{"title": ..., "items": choices}`. -/
structure PickerNode where
  title : String
  items : List PickerChoice
deriving DecidableEq

/-- The per-file part of `_expand_picker_node`, given the matched files
(`paths` after globbing, lines 344-424).  `env_var` is
`str(picker.get("env_var", "KUBECONFIG"))` (line 337); the function body
never uses it. -/
def expand_picker_node (KUBECTL : String) (label? : Option String)
    (env_var : String) (actions : List ActTemplate) (paths : List PickerFile) :
    Except String PickerNode :=
  let _ := env_var
  let kubectl_q := shlexQuote KUBECTL
  match paths.mapM (picker_file_choice KUBECTL kubectl_q actions) with
  | .error e => .error e
  | .ok choices => .ok ⟨label?.getD "Choose file", choices⟩

/-! ## Process status line (`OpsDesk.run_command.runner`, `app.py` 674-676)

The status glyphs below are the literal characters stored in the source
file (the file contains them in double-encoded form, e.g. U+00E2 U+00B9
for the stop glyph). -/

/-- `status = "⹠killed" if self._was_killed else ("✔ done" if rc == 0
else f"✖ exit {rc}")` with the glyphs exactly as the file stores them. -/
def runner_status (was_killed : Bool) (rc : Int) : String :=
  if was_killed then "â¹ killed"
  else if rc = 0 then "âœ” done"
  else "âœ– exit " ++ toString rc

/-- `self._log_line(f"{status}  {cmd}")` (`app.py` line 676). -/
def runner_status_line (was_killed : Bool) (rc : Int) (cmd : String) : String :=
  runner_status was_killed rc ++ "  " ++ cmd

/-! ## Command history (`app.py` 707-752) -/

/-- The history-related state of the `OpsDesk` app: `self._history`,
`self._hist_idx` (`None` = not navigating) and the command input's
value. -/
structure HistState where
  history : List String
  hist_idx : Option Nat
  input_value : String
deriving DecidableEq

/-- `OpsDesk._history_push` (`app.py` 707-715): empty commands are
ignored; a command equal to the most recent entry returns early (before
the cursor reset); otherwise append and set `_hist_idx = None`. -/
def history_push (s : HistState) (cmd : String) : HistState :=
  if cmd = "" then s
  else if s.history.getLast? = some cmd then s
  else { s with history := s.history ++ [cmd], hist_idx := none }

/-- `OpsDesk.action_history_prev` (`app.py` 731-739).  `max(0, i - 1)` is
natural subtraction `i - 1`; the guard `not self.cmd_input` is dropped
because the input widget always exists once the app is composed. -/
def action_history_prev (s : HistState) : HistState :=
  if s.history = [] then s
  else
    match s.hist_idx with
    | none =>
      let i := s.history.length - 1
      { s with hist_idx := some i, input_value := s.history.getD i "" }
    | some i =>
      let j := i - 1
      { s with hist_idx := some j, input_value := s.history.getD j "" }

/-- `OpsDesk.action_history_next` (`app.py` 741-752). -/
def action_history_next (s : HistState) : HistState :=
  if s.history = [] then s
  else
    match s.hist_idx with
    | none => s
    | some i =>
      if i < s.history.length - 1 then
        { s with hist_idx := some (i + 1), input_value := s.history.getD (i + 1) "" }
      else
        { s with hist_idx := none, input_value := "" }

/-- The history effect of `OpsDesk.run_command` (`app.py` 636-646): a
command whose stripped text starts with `interactive:` is dispatched to
`run_interactive` before `_history_push` runs, so the history state is
untouched; all other commands are pushed. -/
def run_command_history (s : HistState) (cmd : String) : HistState :=
  if pyStartsWith (pyStrip cmd) "interactive:" then s
  else history_push s cmd

/-! ## Navigation stack (`MenuPane`, `app.py` 195, 430-437, 469, 488)

`self.stack` is a Python list of node references with the current view at
the end; submenu/picker selection appends, `go_back` pops unless the
stack is at the root. -/

/-- `self.stack.append(item)`. -/
def push_node {α : Type} (stack : List α) (n : α) : List α := stack ++ [n]

/-- `MenuPane.go_back` (`app.py` 430-437): pop only when the depth
exceeds 1. -/
def go_back {α : Type} (stack : List α) : List α :=
  if stack.length > 1 then stack.dropLast else stack

/-! ## Menu normalization (`_normalize_to_menu`, `app.py` 131-158) -/

/-- A child node as far as the sort key is concerned: `order` and
`label` keys, each possibly absent, plus the `cmd` payload. -/
structure SortItem where
  order? : Option Int
  label? : Option String
  cmd? : Option String
deriving DecidableEq

/-- A `buttons` entry: `label` and `cmd` keys, possibly absent. -/
structure RawButton where
  label? : Option String
  cmd? : Option String
deriving DecidableEq

/-- The loosely-structured input of `_normalize_to_menu`. -/
structure NormInput where
  title? : Option String
  order? : Option Int
  items? : Option (List SortItem)
  buttons? : Option (List RawButton)

/-- The canonical root produced by `_normalize_to_menu`. -/
structure MenuRoot where
  title : String
  order : Int
  items : List SortItem

/-- The sort key `(x.get("order", 9999), str(x.get("label", "")))`
(`app.py` 154-155). -/
def item_key (x : SortItem) : Int × String := (x.order?.getD 9999, x.label?.getD "")

/-- Code-point lexicographic strict comparison of strings, the order
Python uses for `str`. -/
def strLtb : List Char → List Char → Bool
  | [], [] => false
  | [], _ :: _ => true
  | _ :: _, [] => false
  | a :: as, b :: bs =>
    if a.toNat < b.toNat then true
    else if b.toNat < a.toNat then false
    else strLtb as bs

/-- `a ≤ b` on strings, Python-style. -/
def strLeb (a b : String) : Bool := !(strLtb b.toList a.toList)

/-- Non-strict tuple comparison of sort keys: Python compares the
`order` components first, then the `label` strings. -/
def key_le (a b : SortItem) : Bool :=
  if (item_key a).1 < (item_key b).1 then true
  else if (item_key b).1 < (item_key a).1 then false
  else strLeb (item_key a).2 (item_key b).2

/-- The `items` resolution of `_normalize_to_menu` (`app.py` 144-152):
prefer an `items` list, else convert `buttons` (keeping only dicts with a
`cmd` key; label falls back to the command), else a single Info entry. -/
def norm_root_items (d : NormInput) (file_name : String) : List SortItem :=
  match d.items? with
  | some its => its
  | none =>
    match d.buttons? with
    | some bs =>
      bs.filterMap fun b =>
        match b.cmd? with
        | none => none
        | some c =>
          let l := b.label?.getD ""
          some ⟨none, some (if l = "" then c else l), some c⟩
    | none =>
      [⟨none, some "Info", some ("echo \"No actions in " ++ file_name ++ "\"")⟩]

/-- `_normalize_to_menu` (`app.py` 131-158).  Python's `sorted` is a
stable sort by the key; it is modelled by `List.mergeSort`, which is
stable and sorts by the same comparison. -/
def normalize_to_menu (d : NormInput) (file_name : String) : MenuRoot :=
  { title := (let t := d.title?.getD ""; if t = "" then file_name else t)
    order := d.order?.getD 9999
    items := (norm_root_items d file_name).mergeSort key_le }

/-! ## Helper lemmas -/

theorem strLtb_asymm : ∀ a b, strLtb a b = true → strLtb b a = false := by
  intro a
  induction a with
  | nil =>
    intro b h
    cases b with
    | nil => simp [strLtb] at h
    | cons d bs => simp [strLtb]
  | cons c as ih =>
    intro b h
    cases b with
    | nil => simp [strLtb] at h
    | cons d bs =>
      by_cases h1 : c.toNat < d.toNat
      · have h2 : ¬ d.toNat < c.toNat := by omega
        simp [strLtb, h1, h2]
      · by_cases h2 : d.toNat < c.toNat
        · simp [strLtb, h1, h2] at h
        · simp [strLtb, h1, h2] at h ⊢
          exact ih bs h

theorem strLtb_neg_trans :
    ∀ a b c, strLtb b a = false → strLtb c b = false → strLtb c a = false := by
  intro a
  induction a with
  | nil =>
    intro b c h1 h2
    cases c with
    | nil => rfl
    | cons c0 cs => rfl
  | cons a0 as ih =>
    intro b c h1 h2
    cases b with
    | nil => exact Bool.noConfusion h1
    | cons b0 bs =>
      cases c with
      | nil => exact Bool.noConfusion h2
      | cons c0 cs =>
        have hEq : ∀ (x y : Char) (xs ys : List Char),
            strLtb (x :: xs) (y :: ys) =
              (if x.toNat < y.toNat then true
               else if y.toNat < x.toNat then false else strLtb xs ys) :=
          fun _ _ _ _ => rfl
        rw [hEq] at h1 h2
        rw [hEq]
        by_cases e1 : b0.toNat < a0.toNat
        · rw [if_pos e1] at h1
          exact Bool.noConfusion h1
        · rw [if_neg e1] at h1
          by_cases e2 : c0.toNat < b0.toNat
          · rw [if_pos e2] at h2
            exact Bool.noConfusion h2
          · rw [if_neg e2] at h2
            have e3 : ¬ c0.toNat < a0.toNat := by omega
            rw [if_neg e3]
            by_cases e4 : a0.toNat < c0.toNat
            · rw [if_pos e4]
            · rw [if_neg e4]
              have e5 : ¬ a0.toNat < b0.toNat := by omega
              have e6 : ¬ b0.toNat < c0.toNat := by omega
              rw [if_neg e5] at h1
              rw [if_neg e6] at h2
              exact ih bs cs h1 h2

theorem key_le_trans :
    ∀ a b c : SortItem, key_le a b = true → key_le b c = true → key_le a c = true := by
  intro a b c h1 h2
  unfold key_le at h1 h2 ⊢
  have f1 : (item_key a).1 ≤ (item_key b).1 := by
    by_cases e : (item_key a).1 < (item_key b).1
    · omega
    · by_cases e2 : (item_key b).1 < (item_key a).1
      · simp [e, e2] at h1
      · omega
  have f2 : (item_key b).1 ≤ (item_key c).1 := by
    by_cases e : (item_key b).1 < (item_key c).1
    · omega
    · by_cases e2 : (item_key c).1 < (item_key b).1
      · simp [e, e2] at h2
      · omega
  by_cases e : (item_key a).1 < (item_key c).1
  · simp [e]
  · have g1 : ¬ (item_key a).1 < (item_key b).1 := by omega
    have g2 : ¬ (item_key b).1 < (item_key a).1 := by omega
    have g3 : ¬ (item_key b).1 < (item_key c).1 := by omega
    have g4 : ¬ (item_key c).1 < (item_key b).1 := by omega
    have g5 : ¬ (item_key c).1 < (item_key a).1 := by omega
    simp [g1, g2] at h1
    simp [g3, g4] at h2
    simp [e, g5]
    unfold strLeb at h1 h2 ⊢
    simp only [Bool.not_eq_true'] at h1 h2 ⊢
    exact strLtb_neg_trans _ _ _ h1 h2

theorem key_le_total :
    ∀ a b : SortItem, (key_le a b || key_le b a) = true := by
  intro a b
  unfold key_le
  by_cases e1 : (item_key a).1 < (item_key b).1
  · simp [e1]
  · by_cases e2 : (item_key b).1 < (item_key a).1
    · simp [e1, e2]
    · simp only [e1, e2, if_false]
      unfold strLeb
      cases hlt : strLtb (item_key b).2.toList (item_key a).2.toList with
      | false => simp [hlt]
      | true =>
        have h2 := strLtb_asymm _ _ hlt
        simp [hlt]
        exact h2

theorem go_back_push {α : Type} (s : List α) (n : α) (h : s ≠ []) :
    go_back (push_node s n) = s := by
  have hpos : 0 < s.length := List.length_pos.mpr h
  have hc : (push_node s n).length > 1 := by simp [push_node]; exact hpos
  simp [go_back, hc, push_node]
  exact h

theorem go_back_iterate {α : Type} (s nodes : List α) (h : s ≠ []) :
    go_back^[nodes.length] (List.foldl push_node s nodes) = s := by
  induction nodes generalizing s with
  | nil => simp
  | cons n ns ih =>
    have h2 : push_node s n ≠ [] := by simp [push_node]
    calc go_back^[ns.length + 1] (List.foldl push_node (push_node s n) ns)
        = go_back (go_back^[ns.length] (List.foldl push_node (push_node s n) ns)) := by
          rw [Function.iterate_succ_apply']
      _ = go_back (push_node s n) := by rw [ih (push_node s n) h2]
      _ = s := go_back_push s n h

/-! ## Claim theorems -/

/-- C2: the final status line reports the verb `killed` whenever the kill
flag was set, even when the process exits with code 0; otherwise `done`
for exit code 0 and `exit <code>` for a nonzero code (each verb carrying
its glyph, exactly as the source stores it). -/
theorem killed_verb_takes_precedence (was_killed : Bool) (rc : Int) (cmd : String) :
    (was_killed = true → runner_status_line was_killed rc cmd = "â¹ killed  " ++ cmd) ∧
    (was_killed = false → rc = 0 → runner_status_line was_killed rc cmd = "âœ” done  " ++ cmd) ∧
    (was_killed = false → rc ≠ 0 →
      runner_status_line was_killed rc cmd = "âœ– exit " ++ toString rc ++ "  " ++ cmd) := by
  refine ⟨?_, ?_, ?_⟩
  · intro h; subst h; rfl
  · intro h h0; subst h; subst h0; rfl
  · intro h h0; subst h
    simp [runner_status_line, runner_status, h0, String.append_assoc]

/-- C2 witness: with the kill flag set and exit code 0, the status line
still says `killed`. -/
theorem killed_verb_takes_precedence_witness :
    runner_status_line true 0 "ls" = "â¹ killed  " ++ "ls" :=
  (killed_verb_takes_precedence true 0 "ls").1 rfl

/-- C3 counterexample: picker expansion with the default env var
`KUBECONFIG`, one action template `ls {PATH}` and one matched file
`/p.yaml`.  The rendered command `ls /p.yaml` does not reference
`KUBECONFIG`, yet the produced action command is exactly `ls /p.yaml`:
no `KUBECONFIG=<quoted path>` prefix is applied, refuting the claimed
env-var auto-injection. -/
theorem picker_env_injection_cex :
    expand_picker_node "kubectl" (some "Kubeconfigs") "KUBECONFIG"
        [⟨some "LS", some "ls {PATH}"⟩] [⟨"p.yaml", "p", "/p.yaml"⟩] =
      .ok ⟨"Kubeconfigs",
        [⟨"p", [.act ⟨"LS", "ls /p.yaml"⟩, pods_chooser "kubectl" "/p.yaml"]⟩]⟩ ∧
    pyIn "KUBECONFIG" "ls /p.yaml" = false ∧
    pyStartsWith "ls /p.yaml" ("KUBECONFIG" ++ "=") = false := by decide

/-- C3 (amended): picker expansion reads the picker's env-var name but
never uses it — the result is independent of it and no env prefix is ever
added.  Instead, a rendered command whose left-stripped text starts with
`kubectl ` is rewritten to inject the quoted binary and
`--kubeconfig=<shell-quoted path>` right after it, and a rendered command
that invokes neither `kubectl` nor the configured binary is used
unchanged. -/
theorem picker_normalization_spec :
    (∀ (KUBECTL : String) (lbl? : Option String) (ev1 ev2 : String)
        (actions : List ActTemplate) (paths : List PickerFile),
      expand_picker_node KUBECTL lbl? ev1 actions paths =
        expand_picker_node KUBECTL lbl? ev2 actions paths) ∧
    (∀ (KUBECTL kubectl_q path raw : String),
      raw ≠ "" →
      pyStartsWith (pyLStrip raw) "kubectl " = true →
      picker_normalize_cmd KUBECTL kubectl_q path raw =
        kubectl_q ++ " --kubeconfig=" ++ shlexQuote path ++ " " ++ pyDrop (pyLStrip raw) 8) ∧
    (∀ (KUBECTL kubectl_q path raw : String),
      pyStartsWith (pyLStrip raw) "kubectl " = false →
      pyStartsWith (pyLStrip raw) (KUBECTL ++ " ") = false →
      pyStartsWith (pyLStrip raw) (kubectl_q ++ " ") = false →
      picker_normalize_cmd KUBECTL kubectl_q path raw = raw) := by
  refine ⟨fun _ _ _ _ _ _ => rfl, ?_, ?_⟩
  · intro K kq p raw hne hks
    simp [picker_normalize_cmd, hne, hks]
  · intro K kq p raw h1 h2 h3
    by_cases hne : raw = ""
    · simp [picker_normalize_cmd, hne]
    · simp [picker_normalize_cmd, hne, h1, h2, h3]

/-- C3 witness: a bare `kubectl get pods` action gets the
`--kubeconfig` flag injected. -/
theorem picker_normalization_spec_witness :
    picker_normalize_cmd "kubectl" "kubectl" "/p.yaml" "kubectl get pods" =
      "kubectl" ++ " --kubeconfig=" ++ shlexQuote "/p.yaml" ++ " " ++
        pyDrop (pyLStrip "kubectl get pods") 8 :=
  picker_normalization_spec.2.1 "kubectl" "kubectl" "/p.yaml" "kubectl get pods"
    (by decide) (by decide)

/-- C4 counterexample: dynamic-list expansion of the two pod lines with
`entry_label = "{T0}"` and no action templates yields the two entries
`pod-a`, `pod-b`, but each entry's item list is a single default `Echo`
action — it does not contain the platform-default pod action set (for
example, no action labeled `Describe`, which the default pod set has). -/
theorem dynamic_default_action_cex :
    (dynamic_from_lines ⟨none, none, some "{T0}", []⟩
        ["pod-a 1/1 Running", "pod-b 0/1 Pending"]).items =
      [⟨"pod-a", [⟨"Echo", "echo \x27pod-a 1/1 Running\x27"⟩]⟩,
       ⟨"pod-b", [⟨"Echo", "echo \x27pod-b 0/1 Pending\x27"⟩]⟩] ∧
    ((file_item_actions (pods_chooser "kubectl" "/p.yaml")).map ActItem.label).contains
      "Describe" = true ∧
    (∀ entry ∈ (dynamic_from_lines ⟨none, none, some "{T0}", []⟩
        ["pod-a 1/1 Running", "pod-b 0/1 Pending"]).items,
      ∀ a ∈ entry.items, a.label ≠ "Describe") := by decide

/-- C4 (amended): the expansion yields exactly two entries labeled
`pod-a` and `pod-b`, and each entry's item list is the single default
`Echo` action echoing the shell-quoted line (the platform-default pod
action set is attached one level up, to a kubeconfig's `Pods (choose)`
node, not to the expanded line entries). -/
theorem dynamic_pod_lines_expansion :
    ((dynamic_from_lines ⟨none, none, some "{T0}", []⟩
        ["pod-a 1/1 Running", "pod-b 0/1 Pending"]).items.map DynEntry.label =
      ["pod-a", "pod-b"]) ∧
    (dynamic_from_lines ⟨none, none, some "{T0}", []⟩
        ["pod-a 1/1 Running", "pod-b 0/1 Pending"]).items =
      [⟨"pod-a", [⟨"Echo", "echo \x27pod-a 1/1 Running\x27"⟩]⟩,
       ⟨"pod-b", [⟨"Echo", "echo \x27pod-b 0/1 Pending\x27"⟩]⟩] := by decide

/-- C5: a template rendering failure in a dynamic-list action never
escapes the expansion: the failing action still produces an item whose
command echoes the template-error message (possibly behind the env-var
assignment), and the number of produced sibling entries is exactly the
number of non-blank lines — independent of any rendering failure. -/
theorem template_error_degrades :
    (∀ (env_var line : String) (vars : List (String × String)) (act : ActTemplate)
        (lbl e : String),
      act.label? = some lbl →
      pyformat (act.cmd?.getD "") vars = .error e →
      ∃ c, dyn_action_item env_var line vars act = some ⟨lbl, c⟩ ∧
        (c = "echo \"Template error: " ++ e ++ "\"" ∨
         c = env_var ++ "=" ++ shlexQuote line ++ " " ++
             ("echo \"Template error: " ++ e ++ "\""))) ∧
    (∀ (item : DynItem) (lines : List String),
      (dynamic_from_lines item lines).items.length =
        ((lines.map pyStrip).filter (fun l => l ≠ "")).length) := by
  constructor
  · intro env_var line vars act lbl e hl he
    simp only [dyn_action_item, hl, he]
    split_ifs with hc
    · exact ⟨_, rfl, Or.inr rfl⟩
    · exact ⟨_, rfl, Or.inl rfl⟩
  · intro item lines
    simp [dynamic_from_lines]

/-- C5 witness: the undefined placeholder `{FOO}` degrades to an `echo`
of the `KeyError` text. -/
theorem template_error_degrades_witness :
    ∃ c, dyn_action_item "" "x" (dyn_vars "x") ⟨some "Bad", some "{FOO}"⟩ =
        some ⟨"Bad", c⟩ ∧
      (c = "echo \"Template error: " ++ "\x27FOO\x27" ++ "\"" ∨
       c = "" ++ "=" ++ shlexQuote "x" ++ " " ++
           ("echo \"Template error: " ++ "\x27FOO\x27" ++ "\"")) :=
  template_error_degrades.1 "" "x" (dyn_vars "x") ⟨some "Bad", some "{FOO}"⟩ "Bad"
    "\x27FOO\x27" rfl (by decide)

/-- C6 counterexample: pushing a command equal to the most recent entry
returns early and leaves the recall cursor untouched — here the cursor
stays `some 0` instead of being reset to the not-navigating state, so
"every push resets the recall cursor" fails. -/
theorem history_push_dedup_cursor_cex :
    history_push ⟨["ls"], some 0, ""⟩ "ls" = ⟨["ls"], some 0, ""⟩ ∧
    (history_push ⟨["ls"], some 0, ""⟩ "ls").hist_idx ≠ none := by decide

/-- C6 (amended): a non-empty command is appended unless it equals the
most recent entry (adjacent de-dup only: `["ls", "ls", "pwd"]` yields
`["ls", "pwd"]`), and every push that actually appends resets the recall
cursor to not-navigating; a de-duplicated push leaves the whole state —
including the cursor — unchanged. -/
theorem history_push_spec :
    (∀ (s : HistState) (cmd : String), cmd ≠ "" →
      (s.history.getLast? = some cmd → history_push s cmd = s) ∧
      (s.history.getLast? ≠ some cmd →
        history_push s cmd = ⟨s.history ++ [cmd], none, s.input_value⟩)) ∧
    (List.foldl history_push ⟨[], none, ""⟩ ["ls", "ls", "pwd"]).history = ["ls", "pwd"] := by
  constructor
  · intro s cmd hne
    constructor
    · intro hl; simp [history_push, hne, hl]
    · intro hl; simp [history_push, hne, hl]
  · decide

/-- C6 witness: an appending push stores the command and resets the
cursor. -/
theorem history_push_spec_witness :
    history_push ⟨["ls"], some 0, ""⟩ "pwd" = ⟨["ls", "pwd"], none, ""⟩ :=
  (history_push_spec.1 ⟨["ls"], some 0, ""⟩ "pwd" (by decide)).2 (by decide)

/-- C7: with a non-empty history, recall behaves like a shell history
browser without wraparound: from not-navigating, prev jumps to the most
recent entry; prev walks backward and stays at the oldest entry; next
walks forward while entries remain; and next at the newest entry returns
to not-navigating with an empty input. -/
theorem history_recall_navigation (s : HistState) (h : s.history ≠ []) :
    (s.hist_idx = none →
      (action_history_prev s).hist_idx = some (s.history.length - 1) ∧
      (action_history_prev s).input_value = s.history.getD (s.history.length - 1) "") ∧
    (∀ i, s.hist_idx = some (i + 1) →
      (action_history_prev s).hist_idx = some i ∧
      (action_history_prev s).input_value = s.history.getD i "") ∧
    (s.hist_idx = some 0 →
      (action_history_prev s).hist_idx = some 0 ∧
      (action_history_prev s).input_value = s.history.getD 0 "") ∧
    (∀ i, s.hist_idx = some i → i + 1 < s.history.length →
      (action_history_next s).hist_idx = some (i + 1) ∧
      (action_history_next s).input_value = s.history.getD (i + 1) "") ∧
    (∀ i, s.hist_idx = some i → i + 1 ≥ s.history.length →
      (action_history_next s).hist_idx = none ∧
      (action_history_next s).input_value = "") := by
  refine ⟨?_, ?_, ?_, ?_, ?_⟩
  · intro hi; simp [action_history_prev, h, hi]
  · intro i hi; simp [action_history_prev, h, hi]
  · intro hi; simp [action_history_prev, h, hi]
  · intro i hi hlt
    have hx : i < s.history.length - 1 := by omega
    simp [action_history_next, h, hi, hx]
  · intro i hi hge
    have hpos : 0 < s.history.length := List.length_pos.mpr h
    have hx : ¬ i < s.history.length - 1 := by omega
    simp [action_history_next, h, hi, hx]

/-- C7 witness: from a fresh (not-navigating) state over `["ls", "pwd"]`,
prev lands on the newest entry `pwd`. -/
theorem history_recall_navigation_witness :
    (action_history_prev ⟨["ls", "pwd"], none, ""⟩).hist_idx = some 1 ∧
    (action_history_prev ⟨["ls", "pwd"], none, ""⟩).input_value = "pwd" :=
  (history_recall_navigation ⟨["ls", "pwd"], none, ""⟩ (by decide)).1 rfl

/-- C8 counterexample: sorting `[b, a]` where `b` has the explicit order
10000 and `a` has none puts `a` (sentinel key 9999) before `b`, so a node
without an explicit order does NOT sort after all nodes with explicit
orders. -/
theorem sort_sentinel_cex :
    (normalize_to_menu ⟨none, none,
        some [⟨some 10000, some "b", none⟩, ⟨none, some "a", none⟩], none⟩ "f").items =
      [⟨none, some "a", none⟩, ⟨some 10000, some "b", none⟩] ∧
    (⟨none, some "a", none⟩ : SortItem).order? = none ∧
    (⟨some 10000, some "b", none⟩ : SortItem).order? = some 10000 := by
  refine ⟨?_, rfl, rfl⟩
  show ([⟨some 10000, some "b", none⟩, ⟨none, some "a", none⟩] : List SortItem).mergeSort
      key_le = _
  rw [List.mergeSort]
  show List.merge (List.mergeSort [⟨some 10000, some "b", none⟩] key_le)
      (List.mergeSort [⟨none, some "a", none⟩] key_le) key_le = _
  rw [List.mergeSort_singleton, List.mergeSort_singleton]
  rw [List.cons_merge_cons]
  have hc : key_le ⟨some 10000, some "b", none⟩ ⟨none, some "a", none⟩ = false := by decide
  rw [hc]
  simp

/-- C8 (amended): normalization orders children by a stable sort on the
key `(order, label)` with missing orders defaulting to the sentinel 9999:
the result is a permutation of the resolved items, pairwise sorted by the
key, any key-sorted sub-selection of the input keeps its relative order
(stability), and a node with an explicit order below the sentinel sorts
strictly before every node without an order. -/
theorem normalize_sort_spec :
    (∀ (d : NormInput) (f : String),
      (normalize_to_menu d f).items.Perm (norm_root_items d f)) ∧
    (∀ (d : NormInput) (f : String),
      (normalize_to_menu d f).items.Pairwise (fun a b => key_le a b = true)) ∧
    (∀ (c : List SortItem) (d : NormInput) (f : String),
      c.Pairwise (fun a b => key_le a b = true) →
      c.Sublist (norm_root_items d f) →
      c.Sublist (normalize_to_menu d f).items) ∧
    (∀ (a b : SortItem) (oa : Int), a.order? = some oa → oa < 9999 → b.order? = none →
      key_le a b = true ∧ key_le b a = false) := by
  refine ⟨?_, ?_, ?_, ?_⟩
  · intro d f
    exact List.mergeSort_perm (norm_root_items d f) key_le
  · intro d f
    exact List.sorted_mergeSort (fun a b c => key_le_trans a b c) key_le_total
      (norm_root_items d f)
  · intro c d f hp hs
    exact List.sublist_mergeSort (fun a b c => key_le_trans a b c) key_le_total hp hs
  · intro a b oa ha hlt hb
    have h1 : (item_key a).1 = oa := by simp [item_key, ha]
    have h2 : (item_key b).1 = 9999 := by simp [item_key, hb]
    constructor
    · unfold key_le
      rw [h1, h2]
      simp [hlt]
    · unfold key_le
      rw [h1, h2]
      have h3 : ¬ (9999 : Int) < oa := by omega
      simp [hlt, h3]

/-- C8 witness: an explicitly ordered node (order 1) keys strictly before
an unordered node. -/
theorem normalize_sort_spec_witness :
    key_le ⟨some 1, some "z", none⟩ ⟨none, some "a", none⟩ = true ∧
    key_le ⟨none, some "a", none⟩ ⟨some 1, some "z", none⟩ = false :=
  normalize_sort_spec.2.2.2 ⟨some 1, some "z", none⟩ ⟨none, some "a", none⟩ 1 rfl
    (by decide) rfl

/-- C9: `go_back` on a depth-1 stack is a no-op (the stack is never
emptied); a push followed by `go_back` restores exactly the prior stack;
and pushing any sequence of nodes followed by as many `go_back`s returns
to the original stack, at any nesting depth. -/
theorem nav_stack_push_pop :
    (∀ (α : Type) (r : α), go_back [r] = [r]) ∧
    (∀ (α : Type) (s : List α) (n : α), s ≠ [] → go_back (push_node s n) = s) ∧
    (∀ (α : Type) (s nodes : List α), s ≠ [] →
      go_back^[nodes.length] (List.foldl push_node s nodes) = s) :=
  ⟨fun _ _ => by simp [go_back],
   fun _ s n h => go_back_push s n h,
   fun _ s nodes h => go_back_iterate s nodes h⟩

/-- C9 witness: five nested pushes followed by five pops return to the
root. -/
theorem nav_stack_push_pop_witness :
    go_back^[5] (List.foldl push_node ([0] : List Nat) [1, 2, 3, 4, 5]) = [0] :=
  nav_stack_push_pop.2.2 Nat [0] [1, 2, 3, 4, 5] (by decide)

/-- C10: a command whose stripped text starts with `interactive:` is
dispatched to `run_interactive` before the history push, so the history
state — entries and recall cursor alike — is completely unchanged. -/
theorem interactive_cmd_skips_history (s : HistState) (cmd : String)
    (h : pyStartsWith (pyStrip cmd) "interactive:" = true) :
    run_command_history s cmd = s := by
  simp [run_command_history, h]

/-- C10 witness: an `interactive:` exec command leaves a concrete history
state untouched. -/
theorem interactive_cmd_skips_history_witness :
    run_command_history ⟨["ls"], some 0, "x"⟩
      "interactive: kubectl exec -it pod-a -- bash" = ⟨["ls"], some 0, "x"⟩ :=
  interactive_cmd_skips_history _ _ (by decide)

end OpsDesk
